import Mathlib

/-!
Verification of the fluid-solver-gui repository.

The repository is a PySide6 desktop application (src/main.py plus the tab
modules under src/tabs/) whose entire logic is: (a) dynamic creation and
removal of widget rows in the geometry, boundary-condition and output tabs,
and (b) the serialization routine SolverGUI.save_input_file that maps the
widget state of the six tabs to a flat key/value text file.

This file gives a shallow embedding of that widget state and of the
operations the claims are about:

- numeric spinner widgets (QDoubleSpinBox) hold decimal values and are
  modelled as exact rationals; integer spinners (QSpinBox) as Int; text
  fields and dropdown selections as String;
- the Python number-formatting operations used by the source (str of a
  float, the .6e scientific format, the .2f and .4f fixed formats, and int
  truncation) are reimplemented over the exact rational value, working
  directly on numerator and denominator so that all definitions evaluate
  by kernel reduction;
- the generated file is modelled as a list of structured lines (comment,
  key/value, blank) in the exact order save_input_file writes them, and the
  final text as their concatenation;
- the add-row, remove-row and refresh operations of the geometry tab
  (GeometryTab.add_boundary_row, remove_boundary_row, refresh_ui) and of
  the boundary-condition tab (BoundaryTab.add_bc_row, remove_generic_row,
  _refresh_bc_labels, refresh_active_boundary_tab) are modelled as pure
  functions on row lists;
- PhysicalTab.calculate_nondim is modelled as a pure function from the
  physical-tab spinner values to the two displayed result strings.
-/

namespace FluidGui

/-! Python numeric formatting, reimplemented over exact rationals. -/

/-- Number of base-10 digits of n (1 for n = 0); fuel-guarded so that it
reduces in the kernel. -/
def digitCount (fuel n : Nat) : Nat :=
  match fuel with
  | 0 => 1
  | f + 1 => if n < 10 then 1 else digitCount f (n / 10) + 1

/-- Decimal digits of the fraction rem / d, stopping when the remainder is
exhausted or the fuel runs out.  The double-spinbox values of the GUI are
decimal, so their expansions terminate well inside the fuel. -/
def fracDigits (d : Nat) : Nat → Nat → String
  | 0, _ => ""
  | fuel + 1, rem =>
    if rem = 0 then "" else toString (rem * 10 / d) ++ fracDigits d fuel (rem * 10 % d)

/-- Python str of a float: at least one fractional digit, no exponent
(for the magnitudes the spinboxes produce). -/
def pyFloatRepr (q : ℚ) : String :=
  let sgn := if q.num < 0 then "-" else ""
  let n := q.num.natAbs
  let d := q.den
  if n % d = 0 then sgn ++ toString (n / d) ++ ".0"
  else sgn ++ toString (n / d) ++ "." ++ fracDigits d 40 (n % d)

/-- Nearest integer to n / d with ties to even, as Python round-half-even. -/
def roundHalfEvenNat (n d : Nat) : Nat :=
  let q := n / d
  let r := n % d
  if 2 * r < d then q
  else if d < 2 * r then q + 1
  else if q % 2 = 0 then q else q + 1

/-- Does 10 ^ e ≤ n / d hold?  Integer comparison only. -/
def tenPowLe (n d : Nat) (e : Int) : Bool :=
  match e with
  | Int.ofNat k => d * 10 ^ k ≤ n
  | Int.negSucc k => d ≤ n * 10 ^ (k + 1)

/-- The exponent e with 10 ^ e ≤ n / d < 10 ^ (e + 1), for n, d ≥ 1. -/
def e10exp (n d : Nat) : Int :=
  let e0 : Int := (digitCount n n : Int) - (digitCount d d : Int)
  if tenPowLe n d e0 then e0 else e0 - 1

/-- Round (n / d) * 10 ^ (6 - e) to the nearest integer, ties to even. -/
def scaledMantissa (n d : Nat) (e : Int) : Nat :=
  match 6 - e with
  | Int.ofNat s => roundHalfEvenNat (n * 10 ^ s) d
  | Int.negSucc s => roundHalfEvenNat n (d * 10 ^ (s + 1))

/-- Two-digit zero-padded exponent, as Python scientific notation prints it. -/
def pad2 (n : Nat) : String := if n < 10 then "0" ++ toString n else toString n

/-- Python format .6e: scientific notation with six fractional digits. -/
def pyFmtE6 (q : ℚ) : String :=
  if q.num = 0 then "0.000000e+00"
  else
    let sgn := if q.num < 0 then "-" else ""
    let n := q.num.natAbs
    let d := q.den
    let e := e10exp n d
    let m := scaledMantissa n d e
    let me := if m = 10000000 then ((1000000 : Nat), e + 1) else (m, e)
    let digs := (toString me.1).toList
    let mant :=
      match digs with
      | [] => "0.000000"
      | c :: rest => String.mk [c] ++ "." ++ String.mk rest
    let esgn := if me.2 < 0 then "-" else "+"
    sgn ++ mant ++ "e" ++ esgn ++ pad2 me.2.natAbs

/-- Left-pad a digit string with zeros to width k. -/
def padZeros (k : Nat) (s : String) : String :=
  if s.length < k then String.mk (List.replicate (k - s.length) '0') ++ s else s

/-- Python fixed-point format with k fractional digits (formats .2f, .4f). -/
def pyFmtFixed (k : Nat) (q : ℚ) : String :=
  let sgn := if q.num < 0 then "-" else ""
  let m := roundHalfEvenNat (q.num.natAbs * 10 ^ k) q.den
  let ip := m / 10 ^ k
  let fp := m % 10 ^ k
  if k = 0 then sgn ++ toString ip
  else sgn ++ toString ip ++ "." ++ padZeros k (toString fp)

/-- Python int() applied to a float: truncation toward zero. -/
def pyTrunc (q : ℚ) : Int := Int.tdiv q.num q.den

/-- Rendering of int(x) inside an f-string. -/
def pyIntStr (q : ℚ) : String := toString (pyTrunc q)

/-- Python str.lower for the ASCII strings the dropdowns hold. -/
def pyLower (s : String) : String := String.mk (s.toList.map Char.toLower)

/-- Models the expression replacing every D by the empty string, as the
source applies to the dimensions dropdown text. -/
def pyRemoveD (s : String) : String := String.mk (s.toList.filter (fun c => c != 'D'))

/-! Path helpers modelling os.path.basename and os.path.splitext (posix). -/

/-- Part of the path after the last slash, as os.path.basename. -/
def basename (s : String) : String :=
  String.mk (s.toList.foldl (fun acc c => if c == '/' then [] else acc ++ [c]) [])

/-- Index of the last dot of a character list, if any. -/
def lastDotIndex (cs : List Char) : Option Nat :=
  (cs.foldl (fun p c => (p.1 + 1, if c == '.' then some p.1 else p.2))
    ((0 : Nat), (none : Option Nat))).2

/-- Root part of os.path.splitext applied to a file name: everything before
the last dot, unless every character before that dot is itself a dot. -/
def splitextRoot (s : String) : String :=
  let cs := s.toList
  match lastDotIndex cs with
  | none => s
  | some i => if (cs.take i).any (fun c => c != '.') then String.mk (cs.take i) else s

/-! Dropdown translation maps of save_input_file (src/main.py). -/

/-- The elem_map dictionary lookup with default 4NodeQuad. -/
def elemTypeMap (s : String) : String :=
  if s == "4-Node Quadrilateral" then "4NodeQuad"
  else if s == "3-Node Triangle" then "3NodeTri"
  else if s == "6-Node Triangle" then "6NodeTri"
  else "4NodeQuad"

/-- The fluid_eqn_map dictionary lookup with default navierStokes. -/
def fluidEqnMap (s : String) : String :=
  if s == "Incompressible Navier-Stokes" then "navierStokes"
  else if s == "Compressible NS" then "compressibleNS"
  else if s == "Euler" then "euler"
  else if s == "Stokes" then "stokes"
  else "navierStokes"

/-- The mesh_eqn_map dictionary lookup with default linearElasticPrescribed. -/
def meshEqnMap (s : String) : String :=
  if s == "None" then "none"
  else if s == "ALE" then "ale"
  else if s == "Prescribed" then "linearElasticPrescribed"
  else if s == "Linear Elasticity" then "linearElastic"
  else "linearElasticPrescribed"

/-- The acoustic_eqn_map dictionary lookup with default none. -/
def acousticEqnMap (s : String) : String :=
  if s == "None" then "none"
  else if s == "Linear Acoustics" then "linearAcoustics"
  else if s == "LPCE" then "lpce"
  else if s == "Helmholtz" then "helmholtz"
  else if s == "Wave Equation" then "waveEquation"
  else "none"

/-! Widget state of the six tabs. -/

/-- One boundary-file row of the geometry tab (GeometryTab.add_boundary_row):
the B-n label, the placeholder of the path field, and the file path text. -/
structure GRow where
  label : String
  placeholder : String
  edit : String
deriving DecidableEq

/-- The geometry tab state: mesh-file fields, element-type dropdown, and the
dynamic boundary-file row list. -/
structure GeometryState where
  coord_edit : String
  conn_edit : String
  conn_type : String
  boundary_rows : List GRow
deriving DecidableEq

/-- The solver tab state, one field per widget of SolverTab.init_ui. -/
structure SolverState where
  sim_type : String
  fluid_eqn : String
  mesh_eqn : String
  acoustic_eqn : String
  dims : String
  nl_min : Int
  nl_max : Int
  nl_tol : ℚ
  lin_solver : String
  lin_tol : ℚ
  lin_max : Int
  lin_rst : Int
  time_step : ℚ
  max_steps : Int
  rho_inf : ℚ
  restart_flag : Bool
  restart_id : Int
  rst_freq : Int
  out_type : String
  out_start : Int
  out_freq : Int
  int_freq : Int
  acoustic_nrbc_x : ℚ
  acoustic_nrbc_y : ℚ
  acoustic_nrbc_z : ℚ
  acoustic_nrbc_inner : ℚ
  acoustic_nrbc_outer : ℚ
deriving DecidableEq

/-- The physical-properties tab state (PhysicalTab.init_ui): density,
characteristic velocity, viscosity, characteristic length, ratio of specific
heats, speed of sound. -/
structure PhysicalState where
  rho : ℚ
  U : ℚ
  mu : ℚ
  L : ℚ
  gamma : ℚ
  a : ℚ
deriving DecidableEq

/-- The initial-condition spinners of the boundary-conditions tab. -/
structure InitialConditions where
  pres : ℚ
  xvel : ℚ
  yvel : ℚ
  zvel : ℚ
  xdisp : ℚ
  ydisp : ℚ
  zdisp : ℚ
  psi : ℚ
deriving DecidableEq

/-- One boundary-condition row (BoundaryTab.add_bc_row): the B-n label, the
name field, the type dropdown text, the value spinner, and the tag spinner.
The tag spinner widget exists only on the displacement sub-tabs; the
serializer reads it only there, and the flow and acoustic rows of this model
never have theirs read. -/
structure BCRow where
  label : String
  name : String
  typ : String
  val : ℚ
  tag : Int
deriving DecidableEq

/-- The boundary-conditions tab state: initial conditions plus the seven
sub-tab row lists, in the order the bc_layouts dictionary holds them. -/
structure BoundaryState where
  init : InitialConditions
  xvel_rows : List BCRow
  yvel_rows : List BCRow
  zvel_rows : List BCRow
  xdisp_rows : List BCRow
  ydisp_rows : List BCRow
  zdisp_rows : List BCRow
  acoustic_rows : List BCRow
deriving DecidableEq

/-- One prescribed-motion tag group (PrescribedTab.add_prescribed_tag), one
field per spinner of its two grids. -/
structure PrescribedGroup where
  heaveAmp : ℚ
  heaveFreq : ℚ
  heavePhase : ℚ
  pitchAmp : ℚ
  pitchFreq : ℚ
  pitchPhase : ℚ
  morphAmp : ℚ
  morphFreq : ℚ
  morphPhase : ℚ
  morphDiv : Int
  morphPos : ℚ
  leposX : ℚ
  leposY : ℚ
deriving DecidableEq

/-- The full widget state of the application: the six tabs.  The output tab
contributes its probe-file and surface-file row texts. -/
structure GuiState where
  geometry : GeometryState
  solver : SolverState
  physical : PhysicalState
  boundary : BoundaryState
  prescribed : List PrescribedGroup
  probe_rows : List String
  surf_rows : List String
deriving DecidableEq

/-! Dynamic-row operations of the geometry tab (src/tabs/geometry_tab.py). -/

/-- The label text B-k used throughout the row bookkeeping. -/
def bLabel (k : Nat) : String := "B-" ++ toString k

/-- The placeholder text of geometry boundary row k. -/
def gPlaceholder (k : Nat) : String := "Select file for Boundary " ++ toString k ++ "..."

/-- GeometryTab.refresh_ui: renumber every row label and placeholder
sequentially; the auxiliary index k is the 1-based position. -/
def refresh_ui_aux (k : Nat) : List GRow → List GRow
  | [] => []
  | r :: rs => { r with label := bLabel k, placeholder := gPlaceholder k } :: refresh_ui_aux (k + 1) rs

/-- GeometryTab.refresh_ui over the whole row list. -/
def refresh_ui (rows : List GRow) : List GRow := refresh_ui_aux 1 rows

/-- GeometryTab.add_boundary_row: append a fresh row (empty path, label from
the current count) and refresh the numbering. -/
def add_boundary_row (rows : List GRow) : List GRow :=
  let k := rows.length + 1
  refresh_ui (rows ++ [{ label := bLabel k, placeholder := gPlaceholder k, edit := "" }])

/-- GeometryTab.remove_boundary_row: keep at least one row; otherwise drop
the row at the given position (no position matches when the index is out of
range, leaving the list unchanged) and refresh the numbering. -/
def remove_boundary_row (rows : List GRow) (i : Nat) : List GRow :=
  if rows.length ≤ 1 then rows
  else refresh_ui (rows.eraseIdx i)

/-- The geometry tab row list right after GeometryTab.create_boundary_files,
which adds the single initial row. -/
def geomInitRows : List GRow := add_boundary_row []

/-- A user action on the geometry boundary-file list. -/
inductive GeomOp where
  | add : GeomOp
  | remove : Nat → GeomOp
deriving DecidableEq

/-- One geometry-tab button click. -/
def geomStep (rows : List GRow) : GeomOp → List GRow
  | .add => add_boundary_row rows
  | .remove i => remove_boundary_row rows i

/-- A sequence of geometry-tab button clicks. -/
def runGeomOps (rows : List GRow) : List GeomOp → List GRow
  | [] => rows
  | op :: ops => runGeomOps (geomStep rows op) ops

/-! Dynamic-row operations of the boundary-condition sub-tabs
(src/tabs/boundary_tab.py). -/

/-- BoundaryTab._refresh_bc_labels: set every row label to its sequential
B-n text; the auxiliary index k is the 1-based position. -/
def refresh_bc_labels_aux (k : Nat) : List BCRow → List BCRow
  | [] => []
  | r :: rs => { r with label := bLabel k } :: refresh_bc_labels_aux (k + 1) rs

/-- BoundaryTab._refresh_bc_labels over the whole row list. -/
def refresh_bc_labels (rows : List BCRow) : List BCRow := refresh_bc_labels_aux 1 rows

/-- BoundaryTab.add_bc_row: append a fresh row and renumber.  A fresh type
dropdown shows its first entry, which is None on every sub-tab; the fresh
name field is empty, the value spinner zero, the tag spinner zero. -/
def add_bc_row (rows : List BCRow) (label_text : Option String) : List BCRow :=
  let lbl :=
    match label_text with
    | some t => t
    | none => bLabel (rows.length + 1)
  refresh_bc_labels (rows ++ [{ label := lbl, name := "", typ := "None", val := 0, tag := 0 }])

/-- BoundaryTab.remove_generic_row: drop the row at the given position and
renumber (no minimum-row guard on this tab). -/
def remove_generic_row (rows : List BCRow) (i : Nat) : List BCRow :=
  refresh_bc_labels (rows.eraseIdx i)

/-- A user action on one boundary-condition sub-tab list. -/
inductive BCOp where
  | add : Option String → BCOp
  | remove : Nat → BCOp
deriving DecidableEq

/-- One boundary-condition sub-tab button click. -/
def bcStep (rows : List BCRow) : BCOp → List BCRow
  | .add lbl => add_bc_row rows lbl
  | .remove i => remove_generic_row rows i

/-- A sequence of boundary-condition sub-tab button clicks. -/
def runBCOps (rows : List BCRow) : List BCOp → List BCRow
  | [] => rows
  | op :: ops => runBCOps (bcStep rows op) ops

/-- The row list of the sub-tab that is active during BoundaryTab.init_ui,
filled by refresh_active_boundary_tab with initial set: a single row
labelled B-1.  The other six sub-tab lists start empty. -/
def bcInitActiveRows : List BCRow := add_bc_row [] (some (bLabel 1))

/-- Replace the name field of the row at the given position. -/
def setBCName : List BCRow → Nat → String → List BCRow
  | [], _, _ => []
  | r :: rs, 0, v => { r with name := v } :: rs
  | r :: rs, n + 1, v => r :: setBCName rs n v

/-- One iteration of the loop of BoundaryTab.refresh_active_boundary_tab
(non-initial): add a row labelled B-(i+1), then when geometry row i holds a
non-empty path, set the new row name to the path base name without its
extension. -/
def refresh_step (geomRows : List GRow) (rows : List BCRow) (i : Nat) : List BCRow :=
  let rows1 := add_bc_row rows (some (bLabel (i + 1)))
  match geomRows[i]? with
  | some g =>
    if g.edit ≠ "" then setBCName rows1 i (splitextRoot (basename g.edit)) else rows1
  | none => rows1

/-- BoundaryTab.refresh_active_boundary_tab (non-initial): clear the active
sub-tab list and rebuild one row per geometry boundary row. -/
def refresh_active_boundary_tab (geomRows : List GRow) : List BCRow :=
  (List.range geomRows.length).foldl (refresh_step geomRows) []

/-! PhysicalTab.calculate_nondim (src/tabs/physical_tab.py). -/

/-- The two result strings written to the Reynolds and Mach read-only
fields: the Reynolds number rho U L / mu at format .2f when mu is non-zero
and Inf otherwise, and the Mach number U / a at format .4f when a is
non-zero and Inf otherwise. -/
def calculate_nondim (rho mu U L a : ℚ) : String × String :=
  ((if mu ≠ 0 then pyFmtFixed 2 ((rho * U * L) / mu) else "Inf"),
   (if a ≠ 0 then pyFmtFixed 4 (U / a) else "Inf"))

/-! The serialization routine SolverGUI.save_input_file (src/main.py). -/

/-- One line of the generated input file: a comment line, a key/value line,
or a blank line (each f.write of the source ends with a newline). -/
inductive Line where
  | comment : String → Line
  | kv : String → String → Line
  | blank : Line
deriving DecidableEq

/-- Text of one line, newline excluded. -/
def lineText : Line → String
  | .comment t => t
  | .kv k v => k ++ " = " ++ v
  | .blank => ""

/-- One collected boundary-condition dictionary (the bc_data of the
collection loop): variable name, nodes text, lower-cased type, value, tag. -/
structure BCEntry where
  var : String
  nodes : String
  typ : String
  val : ℚ
  tag : Int
deriving DecidableEq

/-- The collection loop body over one sub-tab list: rows whose lower-cased
type is none are skipped; every other row yields an entry carrying the
variable name, the name-field text as nodes, the lower-cased type, the
value and the tag. -/
def collectRows (var : String) (rows : List BCRow) : List BCEntry :=
  rows.filterMap fun r =>
    if pyLower r.typ == "none" then none
    else some { var := var, nodes := r.name, typ := pyLower r.typ, val := r.val, tag := r.tag }

/-- The flow_bcs list: the three velocity sub-tabs in dictionary order. -/
def collectFlow (b : BoundaryState) : List BCEntry :=
  collectRows "xVelocity" b.xvel_rows ++ collectRows "yVelocity" b.yvel_rows
    ++ collectRows "zVelocity" b.zvel_rows

/-- The mesh_bcs list: the three displacement sub-tabs in dictionary order. -/
def collectMesh (b : BoundaryState) : List BCEntry :=
  collectRows "xDisp" b.xdisp_rows ++ collectRows "yDisp" b.ydisp_rows
    ++ collectRows "zDisp" b.zdisp_rows

/-- The acoustic_bcs list: the acoustic-potential sub-tab. -/
def collectAcoustic (b : BoundaryState) : List BCEntry :=
  collectRows "acousticPotential" b.acoustic_rows

/-- Lines written per element of an enumerated list, matching the Python
for-loops over enumerate. -/
def numberedLines {α : Type} (f : Nat → α → List Line) : Nat → List α → List Line
  | _, [] => []
  | i, x :: xs => f i x ++ numberedLines f (i + 1) xs

/-- Lines of one flow boundary condition: index, type, var, nodes, and the
val line except for type matchmeshvel. -/
def flowEntryLines (i : Nat) (bc : BCEntry) : List Line :=
  [.kv "index" (toString i), .kv "type" bc.typ, .kv "var" bc.var, .kv "nodes" bc.nodes]
    ++ (if bc.typ ≠ "matchmeshvel" then [.kv "val" (pyFloatRepr bc.val)] else [])

/-- The flow boundary condition section. -/
def flowSection (bcs : List BCEntry) : List Line :=
  [.comment "// Flow boundary conditions", .kv "numberBC" (toString bcs.length)]
    ++ numberedLines flowEntryLines 0 bcs ++ [.blank]

/-- The mesh_bcs_filtered list: drop entries whose tag is zero and whose
type is prescribed. -/
def meshFiltered (bcs : List BCEntry) : List BCEntry :=
  bcs.filter fun bc => bc.tag != 0 || bc.typ != "prescribed"

/-- Lines of one mesh boundary condition: the written type becomes
prescribed whenever the tag is positive, a prescribed entry carries its tag
line, every other entry its val line. -/
def meshEntryLines (i : Nat) (bc : BCEntry) : List Line :=
  let final_type := if bc.tag > 0 then "prescribed" else bc.typ
  [.kv "index" (toString i), .kv "type" final_type, .kv "var" bc.var, .kv "nodes" bc.nodes]
    ++ (if final_type = "prescribed" then [.kv "tag" (toString bc.tag)]
        else [.kv "val" (pyFloatRepr bc.val)])

/-- The mesh boundary condition section (over the filtered list). -/
def meshSection (bcs : List BCEntry) : List Line :=
  [.comment "// Mesh boundary conditions", .kv "numberBC" (toString bcs.length)]
    ++ numberedLines meshEntryLines 0 bcs ++ [.blank]

/-- Lines of one acoustic boundary condition (always with its val line). -/
def acousticEntryLines (i : Nat) (bc : BCEntry) : List Line :=
  [.kv "index" (toString i), .kv "type" bc.typ, .kv "var" bc.var, .kv "nodes" bc.nodes,
   .kv "val" (pyFloatRepr bc.val)]

/-- The acoustic boundary condition section. -/
def acousticSection (bcs : List BCEntry) : List Line :=
  [.comment "// Acoustic boundary conditions", .kv "numberBC" (toString bcs.length)]
    ++ numberedLines acousticEntryLines 0 bcs ++ [.blank]

/-- Lines of prescribed-motion group i, written with tag i + 1 and the
grid spinner values in source order; pitchAxisX, pitchAxisY and chordLength
are constants of the serializer. -/
def prescribedGroupLines (i : Nat) (g : PrescribedGroup) : List Line :=
  [.kv "tag" (toString (i + 1)),
   .kv "heaveAmp" (pyFloatRepr g.heaveAmp),
   .kv "heaveFreq" (pyFloatRepr g.heaveFreq),
   .kv "heavePhase" (pyIntStr g.heavePhase),
   .kv "pitchAmp" (pyIntStr g.pitchAmp),
   .kv "pitchFreq" (pyFloatRepr g.pitchFreq),
   .kv "pitchPhase" (pyIntStr g.pitchPhase),
   .kv "pitchAxisX" "0",
   .kv "pitchAxisY" "0",
   .kv "morphAmp" (pyIntStr g.morphAmp),
   .kv "morphFreq" (pyFloatRepr g.morphFreq),
   .kv "morphPhase" (pyIntStr g.morphPhase),
   .kv "morphPos" (pyIntStr g.morphPos),
   .kv "morphDiv" (toString g.morphDiv),
   .kv "LEPosX" (pyIntStr g.leposX),
   .kv "LEPosY" (pyIntStr g.leposY),
   .kv "chordLength" "1"]

/-- The prescribed motion section. -/
def prescribedSection (gs : List PrescribedGroup) : List Line :=
  [.comment "// Prescribed motion details", .kv "numberBC" (toString gs.length)]
    ++ numberedLines prescribedGroupLines 0 gs ++ [.blank]

/-- Lines of one probe or surface output row: tag i + 1 and the nodes text. -/
def outputEntryLines (i : Nat) (txt : String) : List Line :=
  [.kv "tag" (toString (i + 1)), .kv "nodes" txt]

/-- The output time history section: empty row texts are skipped before
counting and numbering. -/
def probeSection (rows : List String) : List Line :=
  let kept := rows.filter fun t => t != ""
  [.comment "// Output time history details", .kv "numberFiles" (toString kept.length)]
    ++ numberedLines outputEntryLines 0 kept ++ [.blank]

/-- The integrated surface section: same shape as the probe section but with
no trailing blank line of its own. -/
def surfSection (rows : List String) : List Line :=
  let kept := rows.filter fun t => t != ""
  [.comment "// Output integrated surface details", .kv "numberFiles" (toString kept.length)]
    ++ numberedLines outputEntryLines 0 kept

/-- The geometry details section. -/
def geometrySection (g : GeometryState) : List Line :=
  [.comment "// Geometry details",
   .kv "crdFile" g.coord_edit,
   .kv "cnnFile" g.conn_edit,
   .kv "elemType" (elemTypeMap g.conn_type),
   .blank]

/-- The solver details section, one line per solver widget in source order. -/
def solverSection (s : SolverState) : List Line :=
  [.comment "// Solver details",
   .kv "solverType" (pyLower s.sim_type),
   .kv "fluidEqn" (fluidEqnMap s.fluid_eqn),
   .kv "meshEqn" (meshEqnMap s.mesh_eqn),
   .kv "acousticEqn" (acousticEqnMap s.acoustic_eqn),
   .kv "nDims" (pyRemoveD s.dims),
   .kv "nonLinearIterMin" (toString s.nl_min),
   .kv "nonLinearIterMax" (toString s.nl_max),
   .kv "nonLinearTolerance" (pyFmtE6 s.nl_tol),
   .kv "timeStepSize" (pyFmtE6 s.time_step),
   .kv "maxTimeSteps" (toString s.max_steps),
   .kv "rhoInfinity" (pyFmtE6 s.rho_inf),
   .kv "linearSolver" (pyLower s.lin_solver),
   .kv "linearSolverTol" (pyFmtE6 s.lin_tol),
   .kv "linearSolverIterMax" (toString s.lin_max),
   .kv "linearSolverRstIter" (toString s.lin_rst),
   .kv "restartFlag" (if s.restart_flag then "1" else "0"),
   .kv "restartTsId" (toString s.restart_id),
   .kv "restartOutFreq" (toString s.rst_freq),
   .kv "outputFileType" s.out_type,
   .kv "outputStartTimeStep" (toString s.out_start),
   .kv "outFreq" (toString s.out_freq),
   .kv "intOutFreq" (toString s.int_freq),
   .kv "acousticNRBCCentreX" (pyFloatRepr s.acoustic_nrbc_x),
   .kv "acousticNRBCCentreY" (pyFloatRepr s.acoustic_nrbc_y),
   .kv "acousticNRBCCentreZ" (pyFloatRepr s.acoustic_nrbc_z),
   .kv "acousticNRBCInnerRadius" (pyIntStr s.acoustic_nrbc_inner),
   .kv "acousticNRBCOuterRadius" (pyIntStr s.acoustic_nrbc_outer),
   .blank]

/-- The fluid properties section.  The characteristic velocity and the
characteristic length of the physical tab are not written here nor anywhere
else in save_input_file. -/
def fluidSection (p : PhysicalState) : List Line :=
  [.comment "// Fluid properties",
   .kv "fluidDens" (pyFmtE6 p.rho),
   .kv "fluidVisc" (pyFmtE6 p.mu),
   .kv "fluidGamma" (pyFloatRepr p.gamma),
   .kv "fluidSpeedOfSound" (pyIntStr p.a),
   .blank]

/-- The initial conditions section. -/
def initialSection (ic : InitialConditions) : List Line :=
  [.comment "// Initial conditions",
   .kv "initPres" (pyFmtE6 ic.pres),
   .kv "initXVel" (pyFmtE6 ic.xvel),
   .kv "initYVel" (pyFmtE6 ic.yvel),
   .kv "initZVel" (pyFmtE6 ic.zvel),
   .kv "initXDisp" (pyFmtE6 ic.xdisp),
   .kv "initYDisp" (pyFmtE6 ic.ydisp),
   .kv "initZDisp" (pyFmtE6 ic.zdisp),
   .kv "initPsi" (pyFmtE6 ic.psi),
   .blank]

/-- Every line save_input_file writes, in order. -/
def renderLines (st : GuiState) : List Line :=
  [.comment "// Input file for solver", .blank]
    ++ geometrySection st.geometry
    ++ solverSection st.solver
    ++ fluidSection st.physical
    ++ initialSection st.boundary.init
    ++ flowSection (collectFlow st.boundary)
    ++ meshSection (meshFiltered (collectMesh st.boundary))
    ++ acousticSection (collectAcoustic st.boundary)
    ++ prescribedSection st.prescribed
    ++ probeSection st.probe_rows
    ++ surfSection st.surf_rows
    ++ [.blank, .comment "// End of input file"]

/-- The write calls of save_input_file, one string per line. -/
def lineStrings (st : GuiState) : List String :=
  (renderLines st).map fun l => lineText l ++ "\n"

/-- The full text of the generated file. -/
def fileText (st : GuiState) : String :=
  (lineStrings st).foldl (fun acc s => acc ++ s) ""

/-- Outcome of one save_input_file call: the paths opened for writing (a
path is created or truncated the moment open succeeds), the text written,
and whether the except-branch reported an error.  The function always
returns such an outcome: no exception escapes it. -/
structure SaveResult where
  created : List String
  written : String
  errorReported : Bool
deriving DecidableEq

/-- save_input_file as a function of the dialog outcome (none models a
cancelled dialog, which returns an empty path in the source), the widget
state, and the failure point of the underlying file write: none models a
run in which every write succeeds; some 0 an open call that raises; some
(k + 1) a run whose first k line writes succeed before one raises.  In every
case the try/except wrapper reports the error and returns normally. -/
def save_input_file (dialog : Option String) (st : GuiState) (failAt : Option Nat) : SaveResult :=
  match dialog with
  | none => { created := [], written := "", errorReported := false }
  | some p =>
    match failAt with
    | none => { created := [p], written := fileText st, errorReported := false }
    | some 0 => { created := [], written := "", errorReported := true }
    | some (k + 1) =>
      { created := [p],
        written := ((lineStrings st).take k).foldl (fun acc s => acc ++ s) "",
        errorReported := true }

/-- File-system operations for the frame claim. -/
inductive FsOp where
  | openWrite : String → FsOp
  | openRead : String → FsOp
  | writeChunk : String → FsOp
  | readChunk : FsOp
deriving DecidableEq

/-- Is this a read operation? -/
def FsOp.isRead : FsOp → Bool
  | .openRead _ => true
  | .readChunk => true
  | _ => false

/-- The file-system operations a successful save_input_file run performs:
one open in write mode, then the writes. -/
def saveTrace (dialog : Option String) (st : GuiState) : List FsOp :=
  match dialog with
  | none => []
  | some p => FsOp.openWrite p :: (lineStrings st).map FsOp.writeChunk

/-- save_input_file together with the widget state it leaves behind: the
routine only reads widget values, so the state component is the input
state. -/
def saveWithState (dialog : Option String) (st : GuiState) : SaveResult × GuiState :=
  (save_input_file dialog st none, st)

/-! Concrete widget states used by witnesses and counterexamples.  The
values are the widget defaults of the source, with exact rationals built by
their reduced numerator and denominator. -/

/-- The rational one-half-per-mille 0.0005, default of both tolerance
spinners. -/
def q0005 : ℚ := ⟨1, 2000, by decide, by decide⟩

/-- The rational 0.01, default time-step size. -/
def q001 : ℚ := ⟨1, 100, by decide, by decide⟩

/-- The rational 0.9091, default dynamic viscosity. -/
def q9091 : ℚ := ⟨9091, 10000, by decide, by decide⟩

/-- The rational 1.4, default ratio of specific heats. -/
def q14 : ℚ := ⟨7, 5, by decide, by decide⟩

/-- The rational 0.2, default motion frequency. -/
def q02 : ℚ := ⟨1, 5, by decide, by decide⟩

/-- The solver tab defaults. -/
def solverDefault : SolverState :=
  { sim_type := "Transient", fluid_eqn := "Incompressible Navier-Stokes",
    mesh_eqn := "None", acoustic_eqn := "None", dims := "2D",
    nl_min := 1, nl_max := 10, nl_tol := q0005,
    lin_solver := "GMRES", lin_tol := q0005, lin_max := 30, lin_rst := 30,
    time_step := q001, max_steps := 10, rho_inf := 0,
    restart_flag := false, restart_id := 20, rst_freq := 100,
    out_type := "vtk", out_start := 5, out_freq := 1, int_freq := 1,
    acoustic_nrbc_x := 0, acoustic_nrbc_y := 0, acoustic_nrbc_z := 0,
    acoustic_nrbc_inner := 10, acoustic_nrbc_outer := 15 }

/-- The physical tab defaults. -/
def physicalDefault : PhysicalState :=
  { rho := 1000, U := 1, mu := q9091, L := 1, gamma := q14, a := 340 }

/-- The boundary tab defaults: X-velocity 1, the active sub-tab with its one
initial row, the other sub-tabs empty. -/
def boundaryDefault : BoundaryState :=
  { init := { pres := 0, xvel := 1, yvel := 0, zvel := 0,
              xdisp := 0, ydisp := 0, zdisp := 0, psi := 0 },
    xvel_rows := bcInitActiveRows, yvel_rows := [], zvel_rows := [],
    xdisp_rows := [], ydisp_rows := [], zdisp_rows := [], acoustic_rows := [] }

/-- The prescribed tab default group. -/
def prescribedDefault : PrescribedGroup :=
  { heaveAmp := 1, heaveFreq := q02, heavePhase := 90,
    pitchAmp := 30, pitchFreq := q02, pitchPhase := 0,
    morphAmp := 20, morphFreq := q02, morphPhase := 0,
    morphDiv := 99, morphPos := 0, leposX := 0, leposY := 0 }

/-- The full application state right after startup. -/
def stDefault : GuiState :=
  { geometry := { coord_edit := "", conn_edit := "", conn_type := "4-Node Quadrilateral",
                  boundary_rows := geomInitRows },
    solver := solverDefault, physical := physicalDefault, boundary := boundaryDefault,
    prescribed := [prescribedDefault], probe_rows := [""], surf_rows := [""] }

/-- A state whose unserialized widgets hold distinctive digit strings: the
characteristic velocity 123456, the characteristic length 654321, and one
geometry boundary-file row with path 999888.dat. -/
def stC1 : GuiState :=
  { stDefault with
    physical := { physicalDefault with U := 123456, L := 654321 },
    geometry := { stDefault.geometry with
                  boundary_rows := [{ label := bLabel 1, placeholder := gPlaceholder 1,
                                      edit := "999888.dat" }] } }

/-- A boundary state holding a single displacement row whose type dropdown
still shows None and whose tag spinner is zero. -/
def bStateC5 : BoundaryState :=
  { boundaryDefault with
    xvel_rows := [],
    xdisp_rows := [{ label := bLabel 1, name := "wall", typ := "None", val := 0, tag := 0 }] }

/-- The expected label sequence B-k, B-(k+1), ... of length n. -/
def labelsFrom : Nat → Nat → List String
  | _, 0 => []
  | k, n + 1 => bLabel k :: labelsFrom (k + 1) n

/-- The geometry row labels read B-1 through B-n in display order. -/
def geomLabelsOk (rows : List GRow) : Prop :=
  rows.map (fun r => r.label) = labelsFrom 1 rows.length

/-- The boundary-condition row labels read B-1 through B-n in display
order. -/
def bcLabelsOk (rows : List BCRow) : Prop :=
  rows.map (fun r => r.label) = labelsFrom 1 rows.length

/-- The row that position i of the rebuilt active sub-tab holds after
refresh_active_boundary_tab: label B-(i+1), and the name defaults to the
geometry file base name without extension when that row has a path. -/
def mkRefreshedRow (geomRows : List GRow) (i : Nat) : BCRow :=
  { label := bLabel (i + 1),
    name :=
      match geomRows[i]? with
      | some g => if g.edit ≠ "" then splitextRoot (basename g.edit) else ""
      | none => "",
    typ := "None", val := 0, tag := 0 }

/-- The rebuilt rows for positions s, s+1, ..., s+n-1. -/
def mkRefreshedRows (geomRows : List GRow) (s : Nat) : Nat → List BCRow
  | 0 => []
  | n + 1 => mkRefreshedRow geomRows s :: mkRefreshedRows geomRows (s + 1) n

/-- A state with one non-empty probe row, used to instantiate the output
part of the serialization claims. -/
def stProbe : GuiState := { stDefault with probe_rows := ["probes.txt"] }

/-- A one-row geometry list holding a file path, used to instantiate the
cross-tab refresh claim. -/
def geomRowsW : List GRow :=
  [{ label := bLabel 1, placeholder := gPlaceholder 1, edit := "meshes/wing.dat" }]

/-- Does the first list occur at the start of the second? -/
def seqStarts : List Char → List Char → Bool
  | [], _ => true
  | _ :: _, [] => false
  | a :: as, b :: bs => a == b && seqStarts as bs

/-- Does the first list occur anywhere inside the second? -/
def seqInside (pat : List Char) : List Char → Bool
  | [] => seqStarts pat []
  | l@(_ :: rest) => seqStarts pat l || seqInside pat rest

/-! Helper lemmas on the row bookkeeping. -/

theorem refresh_ui_aux_label (rows : List GRow) :
    ∀ k, (refresh_ui_aux k rows).map (fun r => r.label) = labelsFrom k rows.length := by
  induction rows with
  | nil => intro k; rfl
  | cons r rs ih =>
    intro k
    simp only [refresh_ui_aux, List.map_cons, List.length_cons, labelsFrom, ih (k + 1)]

theorem refresh_ui_aux_length (rows : List GRow) :
    ∀ k, (refresh_ui_aux k rows).length = rows.length := by
  induction rows with
  | nil => intro k; rfl
  | cons r rs ih =>
    intro k
    simp only [refresh_ui_aux, List.length_cons, ih (k + 1)]

theorem refresh_ui_labelsOk (rows : List GRow) : geomLabelsOk (refresh_ui rows) := by
  unfold geomLabelsOk refresh_ui
  rw [refresh_ui_aux_label, refresh_ui_aux_length]

theorem geomStep_labelsOk (rows : List GRow) (op : GeomOp) (h : geomLabelsOk rows) :
    geomLabelsOk (geomStep rows op) := by
  cases op with
  | add => exact refresh_ui_labelsOk _
  | remove i =>
    simp only [geomStep, remove_boundary_row]
    by_cases hle : rows.length ≤ 1
    · simpa [hle] using h
    · simpa [hle] using refresh_ui_labelsOk (rows.eraseIdx i)

theorem runGeomOps_labelsOk (ops : List GeomOp) :
    ∀ rows, geomLabelsOk rows → geomLabelsOk (runGeomOps rows ops) := by
  induction ops with
  | nil => intro rows h; exact h
  | cons op ops ih =>
    intro rows h
    exact ih _ (geomStep_labelsOk rows op h)

theorem refresh_bc_aux_label (rows : List BCRow) :
    ∀ k, (refresh_bc_labels_aux k rows).map (fun r => r.label) = labelsFrom k rows.length := by
  induction rows with
  | nil => intro k; rfl
  | cons r rs ih =>
    intro k
    simp only [refresh_bc_labels_aux, List.map_cons, List.length_cons, labelsFrom, ih (k + 1)]

theorem refresh_bc_aux_length (rows : List BCRow) :
    ∀ k, (refresh_bc_labels_aux k rows).length = rows.length := by
  induction rows with
  | nil => intro k; rfl
  | cons r rs ih =>
    intro k
    simp only [refresh_bc_labels_aux, List.length_cons, ih (k + 1)]

theorem refresh_bc_labelsOk (rows : List BCRow) : bcLabelsOk (refresh_bc_labels rows) := by
  unfold bcLabelsOk refresh_bc_labels
  rw [refresh_bc_aux_label, refresh_bc_aux_length]

theorem eraseIdx_length_ge (l : List GRow) : ∀ i, l.length - 1 ≤ (l.eraseIdx i).length := by
  induction l with
  | nil => intro i; simp [List.eraseIdx]
  | cons x xs ih =>
    intro i
    cases i with
    | zero => simp [List.eraseIdx]
    | succ j =>
      have := ih j
      simp only [List.eraseIdx, List.length_cons]
      omega

theorem geomStep_length (rows : List GRow) (op : GeomOp) (h : 1 ≤ rows.length) :
    1 ≤ (geomStep rows op).length := by
  cases op with
  | add =>
    simp only [geomStep, add_boundary_row, refresh_ui, refresh_ui_aux_length,
      List.length_append, List.length_cons]
    omega
  | remove i =>
    simp only [geomStep, remove_boundary_row]
    by_cases hle : rows.length ≤ 1
    · simpa [hle] using h
    · have h2 := eraseIdx_length_ge rows i
      simp only [hle, if_false, refresh_ui, refresh_ui_aux_length]
      omega

theorem runGeomOps_length (ops : List GeomOp) :
    ∀ rows, 1 ≤ rows.length → 1 ≤ (runGeomOps rows ops).length := by
  induction ops with
  | nil => intro rows h; exact h
  | cons op ops ih =>
    intro rows h
    exact ih _ (geomStep_length rows op h)

/-! Claim C3. -/

/-- C3: sequential row numbering is an invariant of the dynamic row lists:
every sequence of add and remove clicks on the geometry boundary-file list,
started from its initial one-row state, leaves the n remaining rows
labelled B-1 through B-n in display order; every single add or remove on a
boundary-condition sub-tab list leaves its rows labelled B-1 through B-n
(each such operation ends by renumbering, whatever the previous state); and
the initially filled sub-tab list carries label B-1. -/
theorem row_labels_sequential :
    (∀ ops : List GeomOp, geomLabelsOk (runGeomOps geomInitRows ops)) ∧
    (∀ (rows : List BCRow) (op : BCOp), bcLabelsOk (bcStep rows op)) ∧
    bcLabelsOk bcInitActiveRows := by
  refine ⟨fun ops => runGeomOps_labelsOk ops geomInitRows (by unfold geomLabelsOk; decide),
    ?_, by unfold bcLabelsOk; decide⟩
  intro rows op
  cases op with
  | add lbl => exact refresh_bc_labelsOk _
  | remove i => exact refresh_bc_labelsOk _

/-! Claim C9. -/

/-- C9: the geometry boundary-file list is never empty: exactly one row is
created at initialization, remove_boundary_row leaves the list unchanged
whenever it holds one row or fewer, and after every sequence of add and
remove clicks at least one row remains. -/
theorem geometry_rows_nonempty :
    geomInitRows.length = 1 ∧
    (∀ ops : List GeomOp, 1 ≤ (runGeomOps geomInitRows ops).length) ∧
    (∀ (rows : List GRow) (i : Nat), rows.length ≤ 1 → remove_boundary_row rows i = rows) := by
  refine ⟨by decide, fun ops => runGeomOps_length ops geomInitRows (by decide), ?_⟩
  intro rows i h
  simp [remove_boundary_row, h]

/-- Witness for C9 at a concrete one-row list: removing from it changes
nothing. -/
theorem geometry_rows_nonempty_witness :
    remove_boundary_row geomInitRows 0 = geomInitRows :=
  geometry_rows_nonempty.2.2 geomInitRows 0 (by decide)

/-! Helper lemmas on refresh_active_boundary_tab. -/

theorem mkRefreshedRows_length (gr : List GRow) :
    ∀ (n s : Nat), (mkRefreshedRows gr s n).length = n := by
  intro n
  induction n with
  | zero => intro s; rfl
  | succ n ih =>
    intro s
    simp only [mkRefreshedRows, List.length_cons, ih (s + 1)]

theorem setBCName_append (l : List BCRow) :
    ∀ (r : BCRow) (v : String),
      setBCName (l ++ [r]) l.length v = l ++ [{ r with name := v }] := by
  induction l with
  | nil => intro r v; rfl
  | cons x xs ih =>
    intro r v
    simp only [List.cons_append, List.length_cons, setBCName, List.append_eq, ih r v]

theorem refresh_aux_mkRows (gr : List GRow) :
    ∀ (n s : Nat) (r : BCRow),
      refresh_bc_labels_aux (s + 1) (mkRefreshedRows gr s n ++ [r])
        = mkRefreshedRows gr s n ++ [{ r with label := bLabel (s + n + 1) }] := by
  intro n
  induction n with
  | zero => intro s r; rfl
  | succ n ih =>
    intro s r
    have h2 : s + 1 + n + 1 = s + (n + 1) + 1 := by omega
    simp only [mkRefreshedRows, List.cons_append, refresh_bc_labels_aux, List.append_eq,
      ih (s + 1), h2]
    simp [mkRefreshedRow]

theorem mkRefreshedRows_snoc (gr : List GRow) :
    ∀ (n s : Nat),
      mkRefreshedRows gr s (n + 1) = mkRefreshedRows gr s n ++ [mkRefreshedRow gr (s + n)] := by
  intro n
  induction n with
  | zero => intro s; rfl
  | succ n ih =>
    intro s
    have h2 : s + 1 + n = s + (n + 1) := by omega
    calc mkRefreshedRows gr s (n + 1 + 1)
        = mkRefreshedRow gr s :: mkRefreshedRows gr (s + 1) (n + 1) := rfl
      _ = mkRefreshedRow gr s
            :: (mkRefreshedRows gr (s + 1) n ++ [mkRefreshedRow gr (s + 1 + n)]) := by
          rw [ih (s + 1)]
      _ = mkRefreshedRows gr s (n + 1) ++ [mkRefreshedRow gr (s + (n + 1))] := by
          rw [h2]; rfl

theorem refresh_step_mkRows (gr : List GRow) (k : Nat) :
    refresh_step gr (mkRefreshedRows gr 0 k) k = mkRefreshedRows gr 0 (k + 1) := by
  have hlen := mkRefreshedRows_length gr k 0
  have hfix := refresh_aux_mkRows gr k 0
  have hsnoc := mkRefreshedRows_snoc gr k 0
  simp only [Nat.zero_add] at hfix hsnoc
  have hset : ∀ (r : BCRow) (v : String),
      setBCName (mkRefreshedRows gr 0 k ++ [r]) k v
        = mkRefreshedRows gr 0 k ++ [{ r with name := v }] := by
    intro r v
    have h := setBCName_append (mkRefreshedRows gr 0 k) r v
    rwa [hlen] at h
  unfold refresh_step add_bc_row refresh_bc_labels
  rcases hg : gr[k]? with _ | g
  · simp only [hg, hfix]
    rw [hsnoc]
    simp [mkRefreshedRow, hg]
  · by_cases he : g.edit = ""
    · simp only [hg, he, ne_eq, not_true_eq_false, if_false]
      rw [hfix, hsnoc]
      simp [mkRefreshedRow, hg, he]
    · simp only [hg, ne_eq, he, not_false_eq_true, if_true]
      rw [hfix, hset, hsnoc]
      simp [mkRefreshedRow, hg, he]

theorem refresh_active_eq_mkRows (gr : List GRow) :
    refresh_active_boundary_tab gr = mkRefreshedRows gr 0 gr.length := by
  unfold refresh_active_boundary_tab
  generalize gr.length = k
  induction k with
  | zero => rfl
  | succ k ih =>
    rw [List.range_succ, List.foldl_append, ih]
    simpa using refresh_step_mkRows gr k

theorem mkRefreshedRows_get (gr : List GRow) :
    ∀ (n s i : Nat), i < n →
      (mkRefreshedRows gr s n)[i]? = some (mkRefreshedRow gr (s + i)) := by
  intro n
  induction n with
  | zero => intro s i h; omega
  | succ n ih =>
    intro s i h
    cases i with
    | zero => simp [mkRefreshedRows]
    | succ j =>
      have hj : j < n := by omega
      have := ih (s + 1) j hj
      simpa [mkRefreshedRows, Nat.add_assoc, Nat.add_comm 1 j] using this

/-! Claim C4. -/

/-- C4: boundary file names entered in the geometry tab feed the default
boundary-condition labels: rebuilding the active boundary-condition sub-tab
with refresh_active_boundary_tab produces exactly as many rows as there are
geometry boundary rows, and every geometry row i holding a non-empty file
path yields the row at position i with its name field set to the path base
name with the extension removed. -/
theorem boundary_names_follow_geometry_files (geomRows : List GRow) :
    (refresh_active_boundary_tab geomRows).length = geomRows.length ∧
    ∀ (i : Nat) (g : GRow), geomRows[i]? = some g → g.edit ≠ "" →
      ∃ row, (refresh_active_boundary_tab geomRows)[i]? = some row ∧
        row.name = splitextRoot (basename g.edit) := by
  rw [refresh_active_eq_mkRows]
  refine ⟨mkRefreshedRows_length geomRows geomRows.length 0, ?_⟩
  intro i g hg he
  have hi : i < geomRows.length := by
    by_contra hlt
    rw [List.getElem?_eq_none (by omega)] at hg
    exact Option.noConfusion hg
  refine ⟨mkRefreshedRow geomRows i, ?_, ?_⟩
  · simpa using mkRefreshedRows_get geomRows geomRows.length 0 i hi
  · simp [mkRefreshedRow, hg, he]

/-- Witness for C4: a single geometry row with path meshes/wing.dat yields a
single rebuilt row named wing. -/
theorem boundary_names_follow_geometry_files_witness :
    (refresh_active_boundary_tab geomRowsW).length = 1 ∧
    ∃ row, (refresh_active_boundary_tab geomRowsW)[0]? = some row ∧
      row.name = splitextRoot (basename "meshes/wing.dat") := by
  refine ⟨(boundary_names_follow_geometry_files geomRowsW).1, ?_⟩
  exact (boundary_names_follow_geometry_files geomRowsW).2 0
    { label := bLabel 1, placeholder := gPlaceholder 1, edit := "meshes/wing.dat" }
    rfl (by decide)

/-! Claim C10. -/

/-- C10: the non-dimensional check never divides by zero: calculate_nondim
computes the Reynolds number rho U L / mu only under its guard that mu is
non-zero and displays Inf when mu is zero, and computes the Mach number
U / a only under its guard that a is non-zero and displays Inf when a is
zero, for every assignment of the physical-tab spinner values. -/
theorem calculate_nondim_no_div_by_zero (rho mu U L a : ℚ) :
    (mu = 0 → (calculate_nondim rho mu U L a).1 = "Inf") ∧
    (mu ≠ 0 → (calculate_nondim rho mu U L a).1 = pyFmtFixed 2 ((rho * U * L) / mu)) ∧
    (a = 0 → (calculate_nondim rho mu U L a).2 = "Inf") ∧
    (a ≠ 0 → (calculate_nondim rho mu U L a).2 = pyFmtFixed 4 (U / a)) := by
  refine ⟨?_, ?_, ?_, ?_⟩ <;> intro h <;> simp [calculate_nondim, h]

/-- Witness for C10 at the default spinner values with the viscosity set to
zero. -/
theorem calculate_nondim_no_div_by_zero_witness :
    (calculate_nondim 1000 0 1 1 340).1 = "Inf" ∧
    (calculate_nondim 1000 0 1 1 340).2 = pyFmtFixed 4 ((1 : ℚ) / 340) :=
  ⟨(calculate_nondim_no_div_by_zero 1000 0 1 1 340).1 rfl,
   (calculate_nondim_no_div_by_zero 1000 0 1 1 340).2.2.2 (by decide)⟩

/-! Claim C6. -/

/-- C6: the only failure mode of saving is a failed file write and it is
contained: save_input_file is a total function into SaveResult, so it
propagates no exception; a cancelled dialog returns without creating or
writing any file and without reporting an error; a run whose open or write
raises still returns a result, with the error reported. -/
theorem save_error_contained :
    (∀ (st : GuiState) (failAt : Option Nat),
        save_input_file none st failAt
          = { created := [], written := "", errorReported := false }) ∧
    (∀ (st : GuiState) (p : String) (k : Nat),
        (save_input_file (some p) st (some k)).errorReported = true) ∧
    (∀ (st : GuiState) (p : String),
        (save_input_file (some p) st none).errorReported = false) := by
  refine ⟨fun st failAt => rfl, fun st p k => ?_, fun st p => rfl⟩
  cases k <;> rfl

/-! Claim C7. -/

theorem map_writeChunk_no_read (l : List String) :
    ((l.map FsOp.writeChunk).all fun op => !op.isRead) = true := by
  induction l with
  | nil => rfl
  | cons x xs ih => simp [FsOp.isRead, ih]

/-- C7: the output is write-only and saving has no effect on the form: the
file-system trace of a save run opens the chosen path in write mode once,
performs only write operations after it, contains no read operation, and
the widget state after the run is the input widget state. -/
theorem save_write_only_frame (st : GuiState) (p : String) :
    saveTrace (some p) st = FsOp.openWrite p :: (lineStrings st).map FsOp.writeChunk ∧
    ((saveTrace (some p) st).all fun op => !op.isRead) = true ∧
    (saveWithState (some p) st).2 = st ∧
    saveTrace none st = [] := by
  refine ⟨rfl, ?_, rfl, rfl⟩
  simp [saveTrace, FsOp.isRead, map_writeChunk_no_read (lineStrings st)]

/-! Claim C2. -/

/-- C2: the widget-state-to-file serialization is deterministic: two save
runs over equal widget states and equal chosen paths produce equal results,
byte-for-byte identical written text included, and the written text does
not depend on the chosen path at all. -/
theorem save_deterministic_from_widget_state :
    (∀ (st₁ st₂ : GuiState) (p₁ p₂ : String), st₁ = st₂ → p₁ = p₂ →
        save_input_file (some p₁) st₁ none = save_input_file (some p₂) st₂ none) ∧
    (∀ (st : GuiState) (p q : String),
        (save_input_file (some p) st none).written
          = (save_input_file (some q) st none).written) :=
  ⟨fun _ _ _ _ hst hp => by rw [hst, hp], fun _ _ _ => rfl⟩

/-- Witness for C2 at the default state and the default dialog file name. -/
theorem save_deterministic_from_widget_state_witness :
    save_input_file (some "inputFile.txt") stDefault none
      = save_input_file (some "inputFile.txt") stDefault none :=
  save_deterministic_from_widget_state.1 stDefault stDefault
    "inputFile.txt" "inputFile.txt" rfl rfl

/-! Helper lemmas on the boundary-condition collection loop. -/

theorem collectRows_cons (var : String) (x : BCRow) (xs : List BCRow) :
    collectRows var (x :: xs)
      = if pyLower x.typ = "none" then collectRows var xs
        else ({ var := var, nodes := x.name, typ := pyLower x.typ, val := x.val, tag := x.tag }
          : BCEntry) :: collectRows var xs := by
  by_cases hx : pyLower x.typ = "none" <;> simp [collectRows, List.filterMap_cons, hx]

theorem collectRows_skips_none (var : String) :
    ∀ rows : List BCRow,
      collectRows var (rows.filter fun r => pyLower r.typ != "none") = collectRows var rows := by
  intro rows
  induction rows with
  | nil => rfl
  | cons r rs ih =>
    by_cases h : pyLower r.typ = "none" <;>
      simp [List.filter_cons, collectRows_cons, h, ih]

theorem mem_collectRows (var : String) :
    ∀ (rows : List BCRow) (r : BCRow), r ∈ rows → pyLower r.typ ≠ "none" →
      ({ var := var, nodes := r.name, typ := pyLower r.typ, val := r.val, tag := r.tag }
        : BCEntry) ∈ collectRows var rows := by
  intro rows
  induction rows with
  | nil => intro r hr; simp at hr
  | cons x xs ih =>
    intro r hr hty
    rcases List.mem_cons.mp hr with hr | hr
    · subst hr
      simp [collectRows_cons, hty]
    · have hmem := ih r hr hty
      rw [collectRows_cons]
      by_cases hx : pyLower x.typ = "none"
      · simpa [hx] using hmem
      · simp only [hx, if_false]
        exact List.mem_cons_of_mem _ hmem

/-! Claim C8. -/

/-- C8: in the flow boundary-condition section, a condition whose
lower-cased type is matchmeshvel is written without a val line while every
other collected flow condition carries its val line; rows whose type
lower-cases to none are dropped by the collection loop before any section
or numberBC count sees them, so removing them first changes nothing; and
the numberBC line of the flow section counts exactly the collected
conditions. -/
theorem flow_bc_val_lines :
    (∀ (i : Nat) (bc : BCEntry) (v : String), bc.typ = "matchmeshvel" →
        Line.kv "val" v ∉ flowEntryLines i bc) ∧
    (∀ (i : Nat) (bc : BCEntry), bc.typ ≠ "matchmeshvel" →
        Line.kv "val" (pyFloatRepr bc.val) ∈ flowEntryLines i bc) ∧
    (∀ (var : String) (rows : List BCRow),
        collectRows var (rows.filter fun r => pyLower r.typ != "none")
          = collectRows var rows) ∧
    (∀ bcs : List BCEntry, Line.kv "numberBC" (toString bcs.length) ∈ flowSection bcs) := by
  refine ⟨?_, ?_, collectRows_skips_none, ?_⟩
  · intro i bc v h
    simp [flowEntryLines, h]
  · intro i bc h
    simp [flowEntryLines, h]
  · intro bcs
    simp [flowSection]

/-- Witness for C8: a matchMeshVel condition carries no val line, a
Dirichlet one does. -/
theorem flow_bc_val_lines_witness :
    (Line.kv "val" (pyFloatRepr (5 : ℚ)) ∉
      flowEntryLines 0 { var := "xVelocity", nodes := "wall", typ := "matchmeshvel",
                         val := 5, tag := 0 }) ∧
    (Line.kv "val" (pyFloatRepr (5 : ℚ)) ∈
      flowEntryLines 0 { var := "xVelocity", nodes := "inlet", typ := "dirichlet",
                         val := 5, tag := 0 }) :=
  ⟨flow_bc_val_lines.1 0 _ (pyFloatRepr (5 : ℚ)) rfl,
   flow_bc_val_lines.2.1 0 _ (by decide)⟩

/-! Helper lemma on numbered prescribed-motion groups. -/

theorem tag_mem_numbered :
    ∀ (gs : List PrescribedGroup) (s i : Nat) (g : PrescribedGroup), gs[i]? = some g →
      Line.kv "tag" (toString (s + i + 1)) ∈ numberedLines prescribedGroupLines s gs := by
  intro gs
  induction gs with
  | nil => intro s i g h; simp at h
  | cons x xs ih =>
    intro s i g h
    cases i with
    | zero =>
      simp [numberedLines, prescribedGroupLines]
    | succ j =>
      have hj : xs[j]? = some g := by simpa using h
      have := ih (s + 1) j g hj
      have harith : s + 1 + j + 1 = s + (j + 1) + 1 := by omega
      rw [harith] at this
      simp only [numberedLines, List.mem_append]
      exact Or.inr this

/-! Claim C5. -/

/-- C5 (amended): the i-th prescribed-motion group is written with a tag
line carrying i + 1; among collected displacement conditions (rows whose
selected type is not None), one whose tag is positive is written with type
prescribed and a tag line carrying that tag, one with tag zero and type
prescribed is dropped by the filter and so omitted from the mesh section,
and every other one is written with its selected lower-cased type and its
val line; every non-None displacement row reaches the collection. -/
theorem prescribed_tags_and_mesh_bcs :
    (∀ (gs : List PrescribedGroup) (i : Nat) (g : PrescribedGroup), gs[i]? = some g →
        Line.kv "tag" (toString (i + 1)) ∈ prescribedSection gs) ∧
    (∀ (i : Nat) (bc : BCEntry), 0 < bc.tag →
        meshEntryLines i bc
          = [.kv "index" (toString i), .kv "type" "prescribed", .kv "var" bc.var,
             .kv "nodes" bc.nodes, .kv "tag" (toString bc.tag)]) ∧
    (∀ (bcs : List BCEntry) (bc : BCEntry), bc ∈ meshFiltered bcs →
        ¬(bc.tag = 0 ∧ bc.typ = "prescribed")) ∧
    (∀ (i : Nat) (bc : BCEntry), bc.tag = 0 → bc.typ ≠ "prescribed" →
        meshEntryLines i bc
          = [.kv "index" (toString i), .kv "type" bc.typ, .kv "var" bc.var,
             .kv "nodes" bc.nodes, .kv "val" (pyFloatRepr bc.val)]) ∧
    (∀ (var : String) (rows : List BCRow) (r : BCRow), r ∈ rows → pyLower r.typ ≠ "none" →
        ({ var := var, nodes := r.name, typ := pyLower r.typ, val := r.val, tag := r.tag }
          : BCEntry) ∈ collectRows var rows) := by
  refine ⟨?_, ?_, ?_, ?_, fun var rows r hr hty => mem_collectRows var rows r hr hty⟩
  · intro gs i g h
    have := tag_mem_numbered gs 0 i g h
    simp only [Nat.zero_add] at this
    simp only [prescribedSection, List.mem_append, List.mem_cons]
    tauto
  · intro i bc h
    simp [meshEntryLines, h]
  · intro bcs bc hmem hcontra
    have h2 := (List.mem_filter.mp hmem).2
    simp [hcontra.1, hcontra.2] at h2
  · intro i bc h0 hty
    have hnotpos : ¬ bc.tag > 0 := by omega
    simp [meshEntryLines, hnotpos, hty]

/-- Witness for C5: a Dirichlet displacement condition with tag 3 is
written as prescribed with its tag line; one with tag 0 keeps its type and
val line; the single default prescribed-motion group is written with tag
1. -/
theorem prescribed_tags_and_mesh_bcs_witness :
    meshEntryLines 0 { var := "xDisp", nodes := "wall", typ := "dirichlet", val := 2, tag := 3 }
        = [.kv "index" "0", .kv "type" "prescribed", .kv "var" "xDisp",
           .kv "nodes" "wall", .kv "tag" "3"] ∧
    meshEntryLines 1 { var := "yDisp", nodes := "top", typ := "dirichlet", val := 2, tag := 0 }
        = [.kv "index" "1", .kv "type" "dirichlet", .kv "var" "yDisp",
           .kv "nodes" "top", .kv "val" (pyFloatRepr (2 : ℚ))] ∧
    Line.kv "tag" "1" ∈ prescribedSection [prescribedDefault] :=
  ⟨prescribed_tags_and_mesh_bcs.2.1 0 _ (by decide),
   prescribed_tags_and_mesh_bcs.2.2.2.1 1 _ rfl (by decide),
   prescribed_tags_and_mesh_bcs.1 [prescribedDefault] 0 prescribedDefault rfl⟩

/-- Counterexample for C5 as frozen: bStateC5 holds one displacement row
with tag 0 whose selected type is None; the claim's remaining case calls
for it to be written with its selected type and a val line, but the
collection loop drops it, so the filtered mesh list is empty and the mesh
section holds a zero count and no condition lines at all. -/
theorem none_disp_row_not_written :
    bStateC5.xdisp_rows
        = [{ label := bLabel 1, name := "wall", typ := "None", val := 0, tag := 0 }] ∧
    meshFiltered (collectMesh bStateC5) = [] ∧
    meshSection (meshFiltered (collectMesh bStateC5))
        = [.comment "// Mesh boundary conditions", .kv "numberBC" "0", .blank] :=
  ⟨rfl, rfl, rfl⟩

/-! Helper lemma for membership under numbered sections. -/

theorem mem_numbered_of_mem {α : Type} (f : Nat → α → List Line) (b : Line) :
    ∀ (l : List α) (a : α), a ∈ l → (∀ i, b ∈ f i a) → ∀ s, b ∈ numberedLines f s l := by
  intro l
  induction l with
  | nil => intro a ha; simp at ha
  | cons x xs ih =>
    intro a ha hb s
    rcases List.mem_cons.mp ha with ha | ha
    · subst ha
      simp only [numberedLines, List.mem_append]
      exact Or.inl (hb s)
    · simp only [numberedLines, List.mem_append]
      exact Or.inr (ih a ha hb (s + 1))

/-! Claim C1. -/

/-- C1 (amended): save_input_file serializes a fixed subset of the form
values into key/value lines: among others, the geometry tab mesh fields,
the solver tab fields, the physical tab density (and viscosity, gamma,
speed of sound), the initial conditions, every prescribed-motion group, and
every non-empty probe row each yield their line; but the physical tab
characteristic velocity and characteristic length and the geometry tab
boundary-file paths are not serialized and do not influence the file at
all. -/
theorem save_serializes_fixed_subset (st : GuiState) :
    Line.kv "crdFile" st.geometry.coord_edit ∈ renderLines st ∧
    Line.kv "solverType" (pyLower st.solver.sim_type) ∈ renderLines st ∧
    Line.kv "fluidDens" (pyFmtE6 st.physical.rho) ∈ renderLines st ∧
    Line.kv "initXVel" (pyFmtE6 st.boundary.init.xvel) ∈ renderLines st ∧
    (∀ g ∈ st.prescribed, Line.kv "heaveAmp" (pyFloatRepr g.heaveAmp) ∈ renderLines st) ∧
    (∀ t ∈ st.probe_rows, t ≠ "" → Line.kv "nodes" t ∈ renderLines st) ∧
    (∀ (u l : ℚ) (rows : List GRow),
        renderLines { st with physical := { st.physical with U := u, L := l },
                              geometry := { st.geometry with boundary_rows := rows } }
          = renderLines st) := by
  refine ⟨?_, ?_, ?_, ?_, ?_, ?_, fun u l rows => rfl⟩
  · simp [renderLines, geometrySection]
  · simp [renderLines, solverSection]
  · simp [renderLines, fluidSection]
  · simp [renderLines, initialSection]
  · intro g hg
    have hline : ∀ i, Line.kv "heaveAmp" (pyFloatRepr g.heaveAmp) ∈ prescribedGroupLines i g := by
      intro i
      simp [prescribedGroupLines]
    have := mem_numbered_of_mem prescribedGroupLines _ st.prescribed g hg hline 0
    simp only [renderLines, prescribedSection, List.mem_append, List.mem_cons]
    tauto
  · intro t ht hne
    have hkept : t ∈ st.probe_rows.filter fun s => s != "" :=
      List.mem_filter.mpr ⟨ht, by simp [hne]⟩
    have hline : ∀ i, Line.kv "nodes" t ∈ outputEntryLines i t := by
      intro i
      simp [outputEntryLines]
    have := mem_numbered_of_mem outputEntryLines _ _ t hkept hline 0
    simp only [renderLines, probeSection, List.mem_append, List.mem_cons]
    tauto

/-- Witness for C1 (amended) at concrete states: the default prescribed
group yields its heaveAmp line, and a probe row holding probes.txt yields
its nodes line. -/
theorem save_serializes_fixed_subset_witness :
    Line.kv "heaveAmp" (pyFloatRepr (1 : ℚ)) ∈ renderLines stDefault ∧
    Line.kv "nodes" "probes.txt" ∈ renderLines stProbe :=
  ⟨(save_serializes_fixed_subset stDefault).2.2.2.2.1 prescribedDefault (by decide),
   (save_serializes_fixed_subset stProbe).2.2.2.2.2.1 "probes.txt" (by decide) (by decide)⟩

/-- Counterexample for C1 as frozen: in the state stC1 the characteristic
velocity spinner holds 123456, the characteristic length spinner holds
654321, and the single geometry boundary-file row holds the path
999888.dat, yet no line of the generated file contains any of those digit
strings: the values of these form widgets appear in no key/value line of
the written file. -/
theorem save_omits_unserialized_widgets :
    stC1.physical.U = 123456 ∧ stC1.physical.L = 654321 ∧
    stC1.geometry.boundary_rows.map (fun r => r.edit) = ["999888.dat"] ∧
    (¬ ∃ l ∈ renderLines stC1, seqInside "123456".toList (lineText l).toList = true) ∧
    (¬ ∃ l ∈ renderLines stC1, seqInside "654321".toList (lineText l).toList = true) ∧
    (¬ ∃ l ∈ renderLines stC1, seqInside "999888".toList (lineText l).toList = true) :=
  ⟨rfl, rfl, rfl, by decide, by decide, by decide⟩

end FluidGui
